import Mathlib

/-!
Shallow embedding of the eBay-Listings-Scraper core
(`my_libs/ebay_listings/ebay_listings_data_extraction.py` and
`my_libs/ebay_listings/ebay_listings_xlsx_writer.py`).

The Selenium driver, the image-download utility and a handful of pure
string transforms (`my_libs/utils.py`, `my_libs/dependencies.py`) are not
part of the sources; they are modelled as explicit capability parameters
(`ExtCaps`, `TermEnv`) or, where a claim depends on them, as definitions whose
doc comment starts with `Modelled from the spec:`.

Python `None` is modelled as `Option.none`; a field either absent from the
record dictionary or set to `None` reads back as `None` via `dict.get`, so
both are `none` here.  Python exceptions that the source catches locally
are modelled as `Option`/flag-valued results; exceptions the source lets
propagate (worksheet creation) are modelled with `Option` at the call site.
-/

/-- Mirror of `DataAttr` from `my_libs/dependencies.py` as used in
`ebay_listings_xlsx_writer.py`: optional display header and optional fixed
column index for one schema member. -/
structure DataAttr where
  header : Option String := none
  column : Option Nat := none
deriving DecidableEq, Repr

/-- Mirror of the `eBayListingData` enum of `ebay_listings_xlsx_writer.py`. -/
inductive eBayListingData where
  | IMAGE_URL
  | IMAGE_PATH
  | KEYWORD
  | TITLE
  | TITLE_HREF
  | SELLER
  | SELLER_SEARCH_LINK
  | ITEM_ID
  | PRICE
  | SHIPPING_COST
deriving DecidableEq, Repr

/-- The `DataAttr` carried by each `eBayListingData` member, copied from the
enum declaration in `ebay_listings_xlsx_writer.py` lines 21-30. -/
def dataAttr : eBayListingData → DataAttr
  | .IMAGE_URL => {}
  | .IMAGE_PATH => { header := some "Image", column := some 0 }
  | .KEYWORD => { header := some "Keyword", column := some 1 }
  | .TITLE => { header := some "Title", column := some 2 }
  | .TITLE_HREF => {}
  | .SELLER => { header := some "Seller", column := some 5 }
  | .SELLER_SEARCH_LINK => {}
  | .ITEM_ID => { header := some "Item ID", column := some 6 }
  | .PRICE => { header := some "Listing Price", column := some 3 }
  | .SHIPPING_COST => { header := some "Shipping Cost", column := some 4 }

/-- The enum members in declaration order. -/
def enumMembers : List eBayListingData :=
  [.IMAGE_URL, .IMAGE_PATH, .KEYWORD, .TITLE, .TITLE_HREF, .SELLER,
   .SELLER_SEARCH_LINK, .ITEM_ID, .PRICE, .SHIPPING_COST]

/-- Constant `MAX_SCRAPE_ROW` of `ebay_listings_data_extraction.py` line 20. -/
def MAX_SCRAPE_ROW : Nat := 100

/-- One listing element (`div.s-item__wrapper`) as seen through the selector
lookups `parse_data_row` performs on it.  Each field is the result of the
corresponding `find_element` + `.text` / `get_attribute` call: `none` models
`NoSuchElementException` (or a `None` attribute value). -/
structure RowElem where
  title_text : Option String := none
  link_href : Option String := none
  seller_info_text : Option String := none
  image_src : Option String := none
  price_text : Option String := none
  shipping_text : Option String := none
  free_x_days_text : Option String := none
deriving DecidableEq, Repr

/-- External pure capabilities used by the extractor, from `my_libs/utils.py`
(not under the provided sources).  `parse_float` models the Python builtin
`float` (returning `none` models `ValueError`); `download_image` models
`Utils.download_image` returning a local path or `None`. -/
structure ExtCaps where
  escape_quotes : String → String
  ebay_clean_product_url : String → String
  build_seller_search_url : String → String
  parse_float : String → Option Rat
  download_image : String → String → Option String

/-- Mirror of the nested `safe_extract_text` helper of `parse_data_row`:
a missing element (`none`) or a transform raising `ValueError` (the
transform returning `none`) both yield `none`. -/
def safe_extract_text (elemText : Option String) (transform : String → Option α) : Option α :=
  match elemText with
  | some t => transform t
  | none => none

/-- Mirror of the nested `safe_extract_attribute` helper of `parse_data_row`:
the input is already the optional attribute value of the located element. -/
def safe_extract_attribute (attr : Option String) : Option String :=
  attr

/-- Mirror of the nested `extract_item_id_from_href` helper: Python
`href.split("/")[-1]` guarded by the truthiness test `if href:`. -/
def extract_item_id_from_href : Option String → Option String
  | some href => if href = "" then none else some ((href.splitOn "/").getLastD "")
  | none => none

/-- Python `str.strip()`: drop leading and trailing whitespace.  Written
over the character list so that it evaluates by kernel reduction (the
library `py_strip` is defined by well-founded recursion and does not). -/
def py_strip (s : String) : String :=
  String.mk ((((s.data).dropWhile Char.isWhitespace).reverse.dropWhile
    Char.isWhitespace).reverse)

/-- Python `a or b` restricted to optional strings, as used for the shipping
cost: a `None` or empty first operand falls through to the second. -/
def pyOrStr (a b : Option String) : Option String :=
  match a with
  | some s => if s = "" then b else some s
  | none => b

/-- Scalar cell value: string or numeric (Python `float`, modelled as `Rat`). -/
inductive Value where
  | str (s : String)
  | num (q : Rat)
deriving DecidableEq, Repr

/-- The record built by `parse_data_row` (plus the `IMAGE_PATH` entry added
by `process_rows_data`).  A field that the Python dict lacks or holds as
`None` is `none`. -/
structure ParsedData where
  image_url : Option String := none
  image_path : Option String := none
  keyword : Option String := none
  title : Option String := none
  title_href : Option String := none
  seller : Option String := none
  seller_search_link : Option String := none
  item_id : Option String := none
  price : Option Rat := none
  shipping_cost : Option String := none
deriving DecidableEq, Repr

/-- Dictionary view of a record: `data.get(key)` of the Python dict. -/
def ParsedData.get (d : ParsedData) : eBayListingData → Option Value
  | .IMAGE_URL => d.image_url.map Value.str
  | .IMAGE_PATH => d.image_path.map Value.str
  | .KEYWORD => d.keyword.map Value.str
  | .TITLE => d.title.map Value.str
  | .TITLE_HREF => d.title_href.map Value.str
  | .SELLER => d.seller.map Value.str
  | .SELLER_SEARCH_LINK => d.seller_search_link.map Value.str
  | .ITEM_ID => d.item_id.map Value.str
  | .PRICE => d.price.map Value.num
  | .SHIPPING_COST => d.shipping_cost.map Value.str

/-- Mirror of `KeywordScraper.parse_data_row`
(`ebay_listings_data_extraction.py` lines 174-264).  `Utils.escape_quotes`
is not under the sources; per the spec it is a quote-escaping text
transform with absence preserved on lookup failure, so it is applied under
`Option.map`. -/
def parse_data_row (ext : ExtCaps) (kw : String) (row : RowElem) : ParsedData :=
  let title := safe_extract_text row.title_text (fun s => some s)
  let link := safe_extract_attribute row.link_href
  let hrefFields :=
    match link with
    | some l =>
      if l = "" then (none, none)
      else
        let cleaned_url := ext.ebay_clean_product_url l
        ((some cleaned_url : Option String), extract_item_id_from_href (some cleaned_url))
    | none => (none, none)
  let seller_info := safe_extract_text row.seller_info_text (fun s => some s)
  let sellerFields :=
    match seller_info with
    | some s =>
      if s = "" then (none, none)
      else
        let seller_id := py_strip ((s.splitOn "(").headD "")
        ((some seller_id : Option String),
         if seller_id.length > 0 then some (ext.build_seller_search_url seller_id) else none)
    | none => (none, none)
  { image_url := safe_extract_attribute row.image_src
    image_path := none
    keyword := some kw
    title := title.map ext.escape_quotes
    title_href := hrefFields.1
    item_id := hrefFields.2
    seller := sellerFields.1
    seller_search_link := sellerFields.2
    price := safe_extract_text row.price_text
      (fun text => ext.parse_float ((text.replace "," "").replace "$" ""))
    shipping_cost := pyOrStr (safe_extract_text row.shipping_text (fun s => some s))
      (safe_extract_text row.free_x_days_text (fun s => some s)) }

/-- Rendered content of one worksheet cell.  Formatting-only aspects of
`Utils.write_data` (the header format, the genuineness marker on titles,
row heights) are not modelled since they carry no data. -/
inductive Cell where
  | empty
  | text (s : String)
  | currency (q : Rat)
  | link (url : String) (display : String)
  | image (path : String)
deriving DecidableEq, Repr

/-- Display text of a value, used for the hyperlink display string. -/
def valueText : Value → String
  | .str s => s
  | .num q => toString q

/-- Modelled from the spec: `Utils.write_data` is not under the sources.
Per spec section 4.3 step 4, a present primary value whose companion link
field is present is written as a hyperlink whose display text is the
primary value and whose target is the companion URL; otherwise the value
is written as plain text (currency-formatted for the price); an absent
value renders as an empty cell. -/
def write_data (d : ParsedData) (key : eBayListingData) (url_key : Option eBayListingData)
    (is_currency : Bool) : Cell :=
  match d.get key with
  | none => Cell.empty
  | some v =>
    match url_key.bind (fun uk => (d.get uk).bind (fun u =>
        match u with
        | .str s => some s
        | .num _ => none)) with
    | some url => Cell.link url (valueText v)
    | none =>
      match v with
      | .str s => Cell.text s
      | .num q => if is_currency then Cell.currency q else Cell.text (toString q)

/-- Modelled from the spec: `Utils.get_enum_col` is not under the sources;
per the spec it returns the member's declared fixed column index. -/
def get_enum_col (k : eBayListingData) : Nat :=
  (dataAttr k).column.getD 0

/-- The `fields_to_write` list of `MyEbayListingExcel.write_data_row`
(`ebay_listings_xlsx_writer.py` lines 222-229): primary field paired with
its optional hyperlink companion field, in the fixed write order. -/
def fields_to_write : List (eBayListingData × Option eBayListingData) :=
  [(.KEYWORD, none), (.TITLE, some .TITLE_HREF), (.PRICE, none),
   (.SELLER, some .SELLER_SEARCH_LINK), (.ITEM_ID, none), (.SHIPPING_COST, none)]

/-- The cells `write_data_row` produces for one record: the embedded image
(when a local path is present) at the image column, then each field of
`fields_to_write` at its declared column.  `is_currency` is true exactly
for the price field, as computed in the source loop. -/
def render_cells (d : ParsedData) : List (Nat × Cell) :=
  (match d.image_path with
   | some p => [(get_enum_col .IMAGE_PATH, Cell.image p)]
   | none => []) ++
  fields_to_write.map (fun fw =>
    (get_enum_col fw.1, write_data d fw.1 fw.2 (decide (fw.1 = eBayListingData.PRICE))))

/-- One logged row write: target sheet, 0-based row index, the record and
its rendered cells. -/
structure WriteEntry where
  sheet : String
  rowIdx : Nat
  data : ParsedData
  cells : List (Nat × Cell)
deriving DecidableEq, Repr

/-- State of the `MyEbayListingExcel` workbook: worksheet names in creation
order, the `row_counts` dictionary, and the log of data-row writes. -/
structure Workbook where
  sheets : List String
  row_counts : String → Option Nat
  writes : List WriteEntry

/-- Number of data rows written to sheet `s` so far. -/
def countSheetWrites (s : String) (wb : Workbook) : Nat :=
  (wb.writes.filter (fun e => e.sheet == s)).length

/-- Mirror of `MyEbayListingExcel.write_data_row`
(`ebay_listings_xlsx_writer.py` lines 180-248): an unknown or empty sheet
name is logged and skipped; otherwise the record's cells are written at the
sheet's current row index and the index advances by exactly one. -/
def write_data_row (wb : Workbook) (sheetName : String) (d : ParsedData) : Workbook :=
  if sheetName = "" then wb
  else
    match wb.row_counts sheetName with
    | none => wb
    | some row_idx =>
      { sheets := wb.sheets
        row_counts := fun n => if n = sheetName then some (row_idx + 1) else wb.row_counts n
        writes := wb.writes ++ [⟨sheetName, row_idx, d, render_cells d⟩] }

/-- Mirror of `MyEbayListingExcel.new_worksheet`
(`ebay_listings_xlsx_writer.py` lines 149-163): adds a worksheet, writes the
header row and initializes its row counter to 1.  `xlsxwriter`'s
`add_worksheet` raises `DuplicateWorksheetName` when the name is already
used; that exception (which the source does not catch) is modelled as
`none`. -/
def added_worksheet (wb : Workbook) (name : String) : Workbook :=
  { sheets := wb.sheets ++ [name],
    row_counts := fun n => if n = name then some 1 else wb.row_counts n,
    writes := wb.writes }

/-- Successful `add_worksheet`: the sheet is appended and its row counter
initialized to 1. -/
def new_worksheet (wb : Workbook) (name : String) : Option Workbook :=
  if name ∈ wb.sheets then none
  else some (added_worksheet wb name)

/-- A workbook with no sheets, before `MyEbayListingExcel.__init__` runs. -/
def empty_workbook : Workbook :=
  { sheets := [], row_counts := fun _ => none, writes := [] }

/-- Mirror of `MyEbayListingExcel.__init__`: a fresh workbook holding only
the aggregate sheet "All Keywords".  Creating the first sheet in an empty
workbook cannot collide, so the `Option` is discharged with `getD`. -/
def mk_listing_workbook : Workbook :=
  (new_worksheet empty_workbook "All Keywords").getD empty_workbook

/-- Modelled from the spec: `Utils.get_enum_headers_row` is not under the
sources; per spec section 3 the header row is derived from the Field
Descriptors "in ascending column-index order".  The pairs of declared
column index and header string, in declaration order. -/
def headerPairs : List (Nat × String) :=
  enumMembers.filterMap (fun f =>
    match (dataAttr f).header, (dataAttr f).column with
    | some h, some c => some (c, h)
    | _, _ => none)

/-- Insertion step of an insertion sort on the column index. -/
def insertByCol (p : Nat × String) : List (Nat × String) → List (Nat × String)
  | [] => [p]
  | q :: qs => if p.1 ≤ q.1 then p :: q :: qs else q :: insertByCol p qs

/-- Insertion sort on the column index. -/
def sortByCol : List (Nat × String) → List (Nat × String)
  | [] => []
  | p :: ps => insertByCol p (sortByCol ps)

/-- Modelled from the spec: the header strings in ascending column-index
order, as `Utils.get_enum_headers_row` returns them. -/
def get_enum_headers_row : List String :=
  (sortByCol headerPairs).map (fun p => p.2)

/-- Mirror of `MyEbayListingExcel.add_headers`
(`ebay_listings_xlsx_writer.py` lines 165-178): `write_row` places the
header strings in consecutive columns starting at the image column, on
row 0.  The cells are returned as (column, header) pairs. -/
def add_headers_cells : List (Nat × String) :=
  get_enum_headers_row.enum.map (fun p => (get_enum_col .IMAGE_PATH + p.1, p.2))

/-- Re-reading the header row: the header string written at column `c`. -/
def header_cell_at (c : Nat) : Option String :=
  add_headers_cells.findSome? (fun p => if p.1 = c then some p.2 else none)

/-- The completed record of one iteration of `KeywordScraper.process_rows_data`
(`ebay_listings_data_extraction.py` lines 154-169): the parsed record with
the `IMAGE_PATH` entry set from the image download, which happens only for
a truthy image URL.  `idx` is the running `enumerate` index (started at
`processed_row_count + 1` by the caller), used only in the image base
name. -/
def row_record (ext : ExtCaps) (kw : String) (idx : Nat) (row : RowElem) : ParsedData :=
  let data0 := parse_data_row ext kw row
  let image_path :=
    match data0.image_url with
    | some u => if u = "" then none else ext.download_image u s!"eBay Listing {kw} {idx}"
    | none => none
  { data0 with image_path := image_path }

/-- Writes of one iteration of `KeywordScraper.process_rows_data`: the
completed record goes to the keyword sheet, then to the aggregate sheet. -/
def process_one_row (ext : ExtCaps) (kw : String) (idx : Nat) (row : RowElem)
    (wb : Workbook) : Workbook :=
  write_data_row (write_data_row wb kw (row_record ext kw idx row)) "All Keywords"
    (row_record ext kw idx row)

/-- The loop of `KeywordScraper.process_rows_data`, recursing over the rows
with the per-row cap check and the per-row counter increment. -/
def process_rows_data (ext : ExtCaps) (kw : String) (rows : List RowElem)
    (idx count : Nat) (wb : Workbook) : Nat × Workbook :=
  match rows with
  | [] => (count, wb)
  | row :: rest =>
    if count ≥ MAX_SCRAPE_ROW then (count, wb)
    else
      process_rows_data ext kw rest (idx + 1) (count + 1) (process_one_row ext kw idx row wb)

/-- Per-term external behaviour of the driver: whether navigation or the
captcha check raises (caught by `scrape_keyword_data`'s outer handler), and
the successive results of `fetch_data_rows` (that method catches its own
errors and returns an empty list, so each entry is just the fetched batch;
an exhausted list behaves like an empty fetch). -/
structure TermEnv where
  navRaises : Bool
  fetches : List (List RowElem)

/-- Mirror of the `while` loop of `KeywordScraper.scrape_keyword_data`
(`ebay_listings_data_extraction.py` lines 84-109): loop while the processed
count is below `MAX_SCRAPE_ROW`; an empty fetch breaks; after processing a
batch smaller than `MAX_SCRAPE_ROW` no further page is requested.  The
one-time diagnostic screenshot has no effect on the state modelled here.
Returns the final count, the workbook, and the fetch results never
requested. -/
def scrape_loop (ext : ExtCaps) (kw : String) (fetches : List (List RowElem))
    (count : Nat) (wb : Workbook) : Nat × Workbook × List (List RowElem) :=
  if count < MAX_SCRAPE_ROW then
    match fetches with
    | [] => (count, wb, [])
    | rows :: rest =>
      if rows.isEmpty then (count, wb, rest)
      else
        let pr := process_rows_data ext kw rows (count + 1) count wb
        if rows.length < MAX_SCRAPE_ROW then (pr.1, pr.2, rest)
        else scrape_loop ext kw rest pr.1 pr.2
  else (count, wb, fetches)

/-- Mirror of `KeywordScraper.scrape_keyword_data`: navigation and the
captcha check run under the outer `try`; a raise there is logged and the
method returns with nothing processed.  `processed_row_count` starts at 0
(`__init__`). -/
def scrape_keyword_data (env : String → TermEnv) (ext : ExtCaps) (kw : String)
    (wb : Workbook) : Nat × Workbook :=
  if (env kw).navRaises then (0, wb)
  else
    let r := scrape_loop ext kw (env kw).fetches 0 wb
    (r.1, r.2.1)

/-- Outcome of `process_keywords`: whether output artifacts (folders and the
workbook file) were created, the non-blank terms actually scraped in order,
whether `save_workbook` was reached, and the final workbook state. -/
structure RunResult where
  created_artifacts : Bool
  attempted : List String
  saved : Bool
  wb : Workbook

/-- Mirror of the `for keyword in keywords` loop of `process_keywords`
(`ebay_listings_data_extraction.py` lines 300-313): each keyword is
stripped; a blank one is logged and skipped; otherwise `KeywordScraper`'s
constructor creates the keyword worksheet — an exception there (duplicate
worksheet name, modelled by `new_worksheet` returning `none`) propagates to
the run-level handler, aborting the loop and skipping the save — and the
term is scraped.  Returns the workbook, the scraped terms, and whether the
loop completed so that `save_workbook` runs. -/
def run_loop (env : String → TermEnv) (ext : ExtCaps) :
    List String → Workbook → List String → Workbook × List String × Bool
  | [], wb, att => (wb, att, true)
  | k :: rest, wb, att =>
    let k2 := py_strip k
    if k2 = "" then run_loop env ext rest wb att
    else
      match new_worksheet wb k2 with
      | none => (wb, att, false)
      | some wb1 => run_loop env ext rest (scrape_keyword_data env ext k2 wb1).2 (att ++ [k2])

/-- Mirror of `process_keywords` (`ebay_listings_data_extraction.py`
lines 267-324): an empty keyword list logs and returns before any folder or
workbook is created; otherwise the folders and the workbook (with its
aggregate sheet) are created and the keyword loop runs, followed by
`save_workbook` when no exception aborted the loop. -/
def process_keywords (env : String → TermEnv) (ext : ExtCaps)
    (keywords : List String) : RunResult :=
  if keywords.isEmpty then
    { created_artifacts := false, attempted := [], saved := false, wb := empty_workbook }
  else
    let r := run_loop env ext keywords mk_listing_workbook []
    { created_artifacts := true, attempted := r.2.1, saved := r.2.2, wb := r.1 }

/-! Helper lemmas about `write_data_row`. -/

lemma write_data_row_sheets (wb : Workbook) (t : String) (d : ParsedData) :
    (write_data_row wb t d).sheets = wb.sheets := by
  unfold write_data_row
  split
  · rfl
  · split
    · rfl
    · rfl

lemma write_data_row_writes_mem (wb : Workbook) (t : String) (d : ParsedData)
    (e : WriteEntry) (h : e ∈ (write_data_row wb t d).writes) :
    e ∈ wb.writes ∨ (e.sheet = t ∧ e.data = d) := by
  unfold write_data_row at h
  split at h
  · exact Or.inl h
  · split at h
    · exact Or.inl h
    · simp only [List.mem_append, List.mem_singleton] at h
      rcases h with h | h
      · exact Or.inl h
      · subst h
        exact Or.inr ⟨rfl, rfl⟩

lemma write_data_row_rc_ne (wb : Workbook) (t : String) (d : ParsedData)
    (s : String) (h : s ≠ t) :
    (write_data_row wb t d).row_counts s = wb.row_counts s := by
  unfold write_data_row
  split
  · rfl
  · split
    · rfl
    · simp [h]

lemma write_data_row_rc_self (wb : Workbook) (t : String) (d : ParsedData)
    (i : Nat) (ht : t ≠ "") (h : wb.row_counts t = some i) :
    (write_data_row wb t d).row_counts t = some (i + 1) := by
  unfold write_data_row
  rw [if_neg ht, h]
  simp

lemma write_data_row_cw_self (wb : Workbook) (t : String) (d : ParsedData)
    (i : Nat) (ht : t ≠ "") (h : wb.row_counts t = some i) :
    countSheetWrites t (write_data_row wb t d) = countSheetWrites t wb + 1 := by
  unfold write_data_row countSheetWrites
  rw [if_neg ht, h]
  simp [List.filter_append]

lemma write_data_row_cw_ne (wb : Workbook) (t : String) (d : ParsedData)
    (s : String) (h : s ≠ t) :
    countSheetWrites s (write_data_row wb t d) = countSheetWrites s wb := by
  unfold write_data_row countSheetWrites
  split
  · rfl
  · split
    · rfl
    · simp [List.filter_append, Ne.symm h]

lemma write_data_row_cw_le (wb : Workbook) (t : String) (d : ParsedData)
    (s : String) :
    countSheetWrites s (write_data_row wb t d) ≤ countSheetWrites s wb + 1 := by
  unfold write_data_row countSheetWrites
  split
  · exact Nat.le_succ _
  · split
    · exact Nat.le_succ _
    · simp only [List.filter_append, List.length_append]
      have hone : ∀ (p : WriteEntry → Bool) (e : WriteEntry),
          (List.filter p [e]).length ≤ 1 := by
        intro p e
        by_cases hp : p e
        · simp [hp]
        · simp [hp]
      exact Nat.add_le_add_left (hone _ _) _

/-! Helper lemmas about `process_rows_data`. -/

lemma prd_count_mono (ext : ExtCaps) (kw : String) (rows : List RowElem)
    (idx count : Nat) (wb : Workbook) :
    count ≤ (process_rows_data ext kw rows idx count wb).1 := by
  induction rows generalizing idx count wb with
  | nil => simp [process_rows_data]
  | cons r rest ih =>
    rw [process_rows_data]
    split
    · simp
    · exact le_trans (Nat.le_succ count) (ih (idx + 1) (count + 1) _)

lemma prd_count_le (ext : ExtCaps) (kw : String) (rows : List RowElem)
    (idx count : Nat) (wb : Workbook) (h : count ≤ MAX_SCRAPE_ROW) :
    (process_rows_data ext kw rows idx count wb).1 ≤ MAX_SCRAPE_ROW := by
  induction rows generalizing idx count wb with
  | nil => simpa [process_rows_data] using h
  | cons r rest ih =>
    rw [process_rows_data]
    split
    · simpa using h
    · next hlt =>
      exact ih (idx + 1) (count + 1) _ (by omega)

lemma prd_sheets (ext : ExtCaps) (kw : String) (rows : List RowElem)
    (idx count : Nat) (wb : Workbook) :
    (process_rows_data ext kw rows idx count wb).2.sheets = wb.sheets := by
  induction rows generalizing idx count wb with
  | nil => simp [process_rows_data]
  | cons r rest ih =>
    rw [process_rows_data]
    split
    · rfl
    · rw [ih]
      unfold process_one_row
      rw [write_data_row_sheets, write_data_row_sheets]

/-! Helper lemmas about `process_one_row`. -/

lemma por_sheets (ext : ExtCaps) (kw : String) (idx : Nat) (row : RowElem)
    (wb : Workbook) :
    (process_one_row ext kw idx row wb).sheets = wb.sheets := by
  unfold process_one_row
  rw [write_data_row_sheets, write_data_row_sheets]

lemma por_cw_le (ext : ExtCaps) (kw : String) (idx : Nat) (row : RowElem)
    (wb : Workbook) (hkw : kw ≠ "All Keywords") :
    countSheetWrites kw (process_one_row ext kw idx row wb) ≤
      countSheetWrites kw wb + 1 := by
  unfold process_one_row
  rw [write_data_row_cw_ne _ "All Keywords" _ kw hkw]
  exact write_data_row_cw_le _ _ _ _

lemma prd_cw_le (ext : ExtCaps) (kw : String) (rows : List RowElem)
    (idx count : Nat) (wb : Workbook) (hkw : kw ≠ "All Keywords") :
    countSheetWrites kw (process_rows_data ext kw rows idx count wb).2 ≤
      countSheetWrites kw wb + ((process_rows_data ext kw rows idx count wb).1 - count) := by
  induction rows generalizing idx count wb with
  | nil => simp [process_rows_data]
  | cons r rest ih =>
    rw [process_rows_data]
    split
    · simp
    · have hmono := prd_count_mono ext kw rest (idx + 1) (count + 1)
        (process_one_row ext kw idx r wb)
      have h1 := por_cw_le ext kw idx r wb hkw
      have h3 := ih (idx + 1) (count + 1) (process_one_row ext kw idx r wb)
      omega

lemma parse_data_row_keyword (ext : ExtCaps) (kw : String) (row : RowElem) :
    (parse_data_row ext kw row).keyword = some kw := rfl

lemma row_record_keyword (ext : ExtCaps) (kw : String) (idx : Nat) (row : RowElem) :
    (row_record ext kw idx row).keyword = some kw := rfl

lemma por_mirror (ext : ExtCaps) (kw : String) (idx : Nat) (row : RowElem)
    (wb : Workbook) (a b : Nat) (hkw : kw ≠ "All Keywords") (h0 : kw ≠ "")
    (ha : wb.row_counts kw = some a) (hb : wb.row_counts "All Keywords" = some b) :
    (process_one_row ext kw idx row wb).row_counts kw = some (a + 1) ∧
    (process_one_row ext kw idx row wb).row_counts "All Keywords" = some (b + 1) ∧
    countSheetWrites kw (process_one_row ext kw idx row wb) = countSheetWrites kw wb + 1 ∧
    countSheetWrites "All Keywords" (process_one_row ext kw idx row wb) =
      countSheetWrites "All Keywords" wb + 1 := by
  unfold process_one_row
  have hb1 : (write_data_row wb kw (row_record ext kw idx row)).row_counts "All Keywords"
      = some b := by
    rw [write_data_row_rc_ne wb kw _ "All Keywords" (Ne.symm hkw)]
    exact hb
  refine ⟨?_, ?_, ?_, ?_⟩
  · rw [write_data_row_rc_ne _ "All Keywords" _ kw hkw]
    exact write_data_row_rc_self wb kw _ a h0 ha
  · exact write_data_row_rc_self _ "All Keywords" _ b (by decide) hb1
  · rw [write_data_row_cw_ne _ "All Keywords" _ kw hkw]
    exact write_data_row_cw_self wb kw _ a h0 ha
  · rw [write_data_row_cw_self _ "All Keywords" _ b (by decide) hb1]
    rw [write_data_row_cw_ne wb kw _ "All Keywords" (Ne.symm hkw)]

lemma por_writes_mem (ext : ExtCaps) (kw : String) (idx : Nat) (row : RowElem)
    (wb : Workbook) (e : WriteEntry)
    (h : e ∈ (process_one_row ext kw idx row wb).writes) :
    e ∈ wb.writes ∨ ((e.sheet = kw ∨ e.sheet = "All Keywords") ∧
      e.data.keyword = some kw) := by
  unfold process_one_row at h
  rcases write_data_row_writes_mem _ _ _ _ h with h1 | h1
  · rcases write_data_row_writes_mem _ _ _ _ h1 with h2 | h2
    · exact Or.inl h2
    · exact Or.inr ⟨Or.inl h2.1, by rw [h2.2]; exact row_record_keyword ext kw idx row⟩
  · exact Or.inr ⟨Or.inr h1.1, by rw [h1.2]; exact row_record_keyword ext kw idx row⟩

lemma prd_mirror (ext : ExtCaps) (kw : String) (rows : List RowElem)
    (idx count : Nat) (wb : Workbook) (a b : Nat)
    (hkw : kw ≠ "All Keywords") (h0 : kw ≠ "")
    (ha : wb.row_counts kw = some a) (hb : wb.row_counts "All Keywords" = some b) :
    count ≤ (process_rows_data ext kw rows idx count wb).1 ∧
    (process_rows_data ext kw rows idx count wb).2.row_counts kw =
      some (a + ((process_rows_data ext kw rows idx count wb).1 - count)) ∧
    (process_rows_data ext kw rows idx count wb).2.row_counts "All Keywords" =
      some (b + ((process_rows_data ext kw rows idx count wb).1 - count)) ∧
    countSheetWrites kw (process_rows_data ext kw rows idx count wb).2 =
      countSheetWrites kw wb + ((process_rows_data ext kw rows idx count wb).1 - count) ∧
    countSheetWrites "All Keywords" (process_rows_data ext kw rows idx count wb).2 =
      countSheetWrites "All Keywords" wb +
        ((process_rows_data ext kw rows idx count wb).1 - count) := by
  induction rows generalizing idx count wb a b with
  | nil => simp [process_rows_data, ha, hb]
  | cons r rest ih =>
    rw [process_rows_data]
    split
    · simp [ha, hb]
    · obtain ⟨p1, p2, p3, p4⟩ := por_mirror ext kw idx r wb a b hkw h0 ha hb
      obtain ⟨q0, q1, q2, q3, q4⟩ :=
        ih (idx + 1) (count + 1) (process_one_row ext kw idx r wb) (a + 1) (b + 1) p1 p2
      refine ⟨by omega, ?_, ?_, by omega, by omega⟩
      · rw [q1]
        congr 1
        omega
      · rw [q2]
        congr 1
        omega

lemma prd_writes (ext : ExtCaps) (kw : String) (rows : List RowElem)
    (idx count : Nat) (wb : Workbook) (e : WriteEntry)
    (h : e ∈ (process_rows_data ext kw rows idx count wb).2.writes) :
    e ∈ wb.writes ∨ ((e.sheet = kw ∨ e.sheet = "All Keywords") ∧
      e.data.keyword = some kw) := by
  induction rows generalizing idx count wb with
  | nil => exact Or.inl (by simpa [process_rows_data] using h)
  | cons r rest ih =>
    rw [process_rows_data] at h
    split at h
    · exact Or.inl h
    · rcases ih (idx + 1) (count + 1) (process_one_row ext kw idx r wb) h with h1 | h1
      · exact por_writes_mem ext kw idx r wb e h1
      · exact Or.inr h1

/-! Helper lemmas about `scrape_loop` and `scrape_keyword_data`. -/

lemma sl_count_mono (ext : ExtCaps) (kw : String) (fetches : List (List RowElem))
    (count : Nat) (wb : Workbook) :
    count ≤ (scrape_loop ext kw fetches count wb).1 := by
  induction fetches generalizing count wb with
  | nil =>
    rw [scrape_loop]
    split
    · simp
    · simp
  | cons rows rest ih =>
    rw [scrape_loop]
    split
    · split
      · simp
      · split
        · exact prd_count_mono ext kw rows (count + 1) count wb
        · exact le_trans (prd_count_mono ext kw rows (count + 1) count wb) (ih _ _)
    · simp

lemma sl_count_le (ext : ExtCaps) (kw : String) (fetches : List (List RowElem))
    (count : Nat) (wb : Workbook) (h : count ≤ MAX_SCRAPE_ROW) :
    (scrape_loop ext kw fetches count wb).1 ≤ MAX_SCRAPE_ROW := by
  induction fetches generalizing count wb with
  | nil =>
    rw [scrape_loop]
    split
    · simpa using h
    · simpa using h
  | cons rows rest ih =>
    rw [scrape_loop]
    split
    · split
      · simpa using h
      · split
        · exact prd_count_le ext kw rows (count + 1) count wb h
        · exact ih _ _ (prd_count_le ext kw rows (count + 1) count wb h)
    · simpa using h

lemma sl_sheets (ext : ExtCaps) (kw : String) (fetches : List (List RowElem))
    (count : Nat) (wb : Workbook) :
    (scrape_loop ext kw fetches count wb).2.1.sheets = wb.sheets := by
  induction fetches generalizing count wb with
  | nil =>
    rw [scrape_loop]
    split
    · rfl
    · rfl
  | cons rows rest ih =>
    rw [scrape_loop]
    split
    · split
      · rfl
      · split
        · exact prd_sheets ext kw rows (count + 1) count wb
        · rw [ih]
          exact prd_sheets ext kw rows (count + 1) count wb
    · rfl

lemma sl_cw_le (ext : ExtCaps) (kw : String) (fetches : List (List RowElem))
    (count : Nat) (wb : Workbook) (hkw : kw ≠ "All Keywords") :
    countSheetWrites kw (scrape_loop ext kw fetches count wb).2.1 ≤
      countSheetWrites kw wb + ((scrape_loop ext kw fetches count wb).1 - count) := by
  induction fetches generalizing count wb with
  | nil =>
    rw [scrape_loop]
    split
    · simp
    · simp
  | cons rows rest ih =>
    rw [scrape_loop]
    split
    · split
      · simp
      · split
        · exact prd_cw_le ext kw rows (count + 1) count wb hkw
        · dsimp only
          have h1 := prd_cw_le ext kw rows (count + 1) count wb hkw
          have h2 := prd_count_mono ext kw rows (count + 1) count wb
          have h3 := ih (process_rows_data ext kw rows (count + 1) count wb).1
            (process_rows_data ext kw rows (count + 1) count wb).2
          have h4 := sl_count_mono ext kw rest
            (process_rows_data ext kw rows (count + 1) count wb).1
            (process_rows_data ext kw rows (count + 1) count wb).2
          omega
    · simp

lemma sl_mirror (ext : ExtCaps) (kw : String) (fetches : List (List RowElem))
    (count : Nat) (wb : Workbook) (a b : Nat)
    (hkw : kw ≠ "All Keywords") (h0 : kw ≠ "")
    (ha : wb.row_counts kw = some a) (hb : wb.row_counts "All Keywords" = some b) :
    count ≤ (scrape_loop ext kw fetches count wb).1 ∧
    (scrape_loop ext kw fetches count wb).2.1.row_counts kw =
      some (a + ((scrape_loop ext kw fetches count wb).1 - count)) ∧
    (scrape_loop ext kw fetches count wb).2.1.row_counts "All Keywords" =
      some (b + ((scrape_loop ext kw fetches count wb).1 - count)) ∧
    countSheetWrites kw (scrape_loop ext kw fetches count wb).2.1 =
      countSheetWrites kw wb + ((scrape_loop ext kw fetches count wb).1 - count) ∧
    countSheetWrites "All Keywords" (scrape_loop ext kw fetches count wb).2.1 =
      countSheetWrites "All Keywords" wb +
        ((scrape_loop ext kw fetches count wb).1 - count) := by
  induction fetches generalizing count wb a b with
  | nil =>
    rw [scrape_loop]
    split
    · simp [ha, hb]
    · simp [ha, hb]
  | cons rows rest ih =>
    rw [scrape_loop]
    split
    · split
      · simp [ha, hb]
      · split
        · exact prd_mirror ext kw rows (count + 1) count wb a b hkw h0 ha hb
        · dsimp only
          obtain ⟨p0, p1, p2, p3, p4⟩ :=
            prd_mirror ext kw rows (count + 1) count wb a b hkw h0 ha hb
          obtain ⟨q0, q1, q2, q3, q4⟩ :=
            ih (process_rows_data ext kw rows (count + 1) count wb).1
              (process_rows_data ext kw rows (count + 1) count wb).2
              (a + ((process_rows_data ext kw rows (count + 1) count wb).1 - count))
              (b + ((process_rows_data ext kw rows (count + 1) count wb).1 - count))
              p1 p2
          refine ⟨by omega, ?_, ?_, by omega, by omega⟩
          · rw [q1]
            congr 1
            omega
          · rw [q2]
            congr 1
            omega
    · simp [ha, hb]

lemma sl_writes (ext : ExtCaps) (kw : String) (fetches : List (List RowElem))
    (count : Nat) (wb : Workbook) (e : WriteEntry)
    (h : e ∈ (scrape_loop ext kw fetches count wb).2.1.writes) :
    e ∈ wb.writes ∨ ((e.sheet = kw ∨ e.sheet = "All Keywords") ∧
      e.data.keyword = some kw) := by
  induction fetches generalizing count wb with
  | nil =>
    rw [scrape_loop] at h
    split at h
    · exact Or.inl h
    · exact Or.inl h
  | cons rows rest ih =>
    rw [scrape_loop] at h
    split at h
    · split at h
      · exact Or.inl h
      · split at h
        · exact prd_writes ext kw rows (count + 1) count wb e h
        · rcases ih _ _ h with h1 | h1
          · exact prd_writes ext kw rows (count + 1) count wb e h1
          · exact Or.inr h1
    · exact Or.inl h

lemma scrape_sheets (env : String → TermEnv) (ext : ExtCaps) (kw : String)
    (wb : Workbook) :
    (scrape_keyword_data env ext kw wb).2.sheets = wb.sheets := by
  unfold scrape_keyword_data
  split
  · rfl
  · exact sl_sheets ext kw (env kw).fetches 0 wb

lemma scrape_writes (env : String → TermEnv) (ext : ExtCaps) (kw : String)
    (wb : Workbook) (e : WriteEntry)
    (h : e ∈ (scrape_keyword_data env ext kw wb).2.writes) :
    e ∈ wb.writes ∨ ((e.sheet = kw ∨ e.sheet = "All Keywords") ∧
      e.data.keyword = some kw) := by
  unfold scrape_keyword_data at h
  split at h
  · exact Or.inl h
  · exact sl_writes ext kw (env kw).fetches 0 wb e h

/-- C1.  For every term, the number of records processed by
`scrape_keyword_data` never exceeds `MAX_SCRAPE_ROW` (= 100), and hence the
number of data rows added to that term's sheet is bounded by the cap as
well: the cap is checked at the page-loop level and again per row. -/
theorem per_term_record_cap (env : String → TermEnv) (ext : ExtCaps)
    (kw : String) (wb : Workbook) (hkw : kw ≠ "All Keywords") :
    (scrape_keyword_data env ext kw wb).1 ≤ MAX_SCRAPE_ROW ∧
    countSheetWrites kw (scrape_keyword_data env ext kw wb).2 ≤
      countSheetWrites kw wb + MAX_SCRAPE_ROW := by
  unfold scrape_keyword_data
  split
  · exact ⟨by simp [MAX_SCRAPE_ROW], by simp⟩
  · dsimp only
    constructor
    · exact sl_count_le ext kw (env kw).fetches 0 wb (by simp [MAX_SCRAPE_ROW])
    · have h1 := sl_cw_le ext kw (env kw).fetches 0 wb hkw
      have h2 := sl_count_le ext kw (env kw).fetches 0 wb (by simp [MAX_SCRAPE_ROW])
      omega

/-- Witness for `per_term_record_cap` at a concrete input. -/
theorem per_term_record_cap_witness :
    ("k" : String) ≠ "All Keywords" ∧
    (scrape_keyword_data (fun _ => ⟨false, []⟩) ⟨id, id, id, fun _ => none, fun _ _ => none⟩
        "k" empty_workbook).1 ≤ MAX_SCRAPE_ROW ∧
    countSheetWrites "k" (scrape_keyword_data (fun _ => ⟨false, []⟩)
        ⟨id, id, id, fun _ => none, fun _ _ => none⟩ "k" empty_workbook).2 ≤
      countSheetWrites "k" empty_workbook + MAX_SCRAPE_ROW :=
  ⟨by decide,
   per_term_record_cap (fun _ => ⟨false, []⟩) ⟨id, id, id, fun _ => none, fun _ _ => none⟩
     "k" empty_workbook (by decide)⟩

/-- C2.  Once the loop has fetched a non-empty batch strictly smaller than
the page-size cap and processed it, no further fetch result is ever
consumed for that term: the loop exits (the term is exhausted), leaving the
remaining fetches untouched. -/
theorem small_batch_requests_no_more_pages (ext : ExtCaps) (kw : String)
    (rows : List RowElem) (rest : List (List RowElem)) (count : Nat) (wb : Workbook)
    (h1 : count < MAX_SCRAPE_ROW) (h2 : rows ≠ [])
    (h3 : rows.length < MAX_SCRAPE_ROW) :
    (scrape_loop ext kw (rows :: rest) count wb).2.2 = rest := by
  rw [scrape_loop]
  rw [if_pos h1]
  have hne : rows.isEmpty = false := by
    cases rows
    · exact absurd rfl h2
    · rfl
  rw [hne]
  simp only [Bool.false_eq_true, if_false]
  rw [if_pos h3]

/-- Witness for `small_batch_requests_no_more_pages` at a concrete input. -/
theorem small_batch_requests_no_more_pages_witness :
    0 < MAX_SCRAPE_ROW ∧ ([({} : RowElem)] : List RowElem) ≠ [] ∧
    ([({} : RowElem)] : List RowElem).length < MAX_SCRAPE_ROW ∧
    (scrape_loop ⟨id, id, id, fun _ => none, fun _ _ => none⟩ "k"
      [[({} : RowElem)], [{}, {}]] 0 mk_listing_workbook).2.2 = [[{}, {}]] :=
  ⟨by decide, by decide, by decide,
   small_batch_requests_no_more_pages ⟨id, id, id, fun _ => none, fun _ _ => none⟩ "k"
     [({} : RowElem)] [[{}, {}]] 0 mk_listing_workbook (by decide) (by decide) (by decide)⟩

/-- C3.  For a term whose sheet and the aggregate sheet are both registered
(as they are right after `KeywordScraper.__init__`), scraping the term adds
exactly as many data rows to the term's sheet as it contributes to the
aggregate sheet — namely one per processed record: every completed record
is written exactly once to each. -/
theorem term_sheet_mirrors_aggregate (env : String → TermEnv) (ext : ExtCaps)
    (kw : String) (wb : Workbook) (a b : Nat)
    (hkw : kw ≠ "All Keywords") (h0 : kw ≠ "")
    (ha : wb.row_counts kw = some a) (hb : wb.row_counts "All Keywords" = some b) :
    countSheetWrites kw (scrape_keyword_data env ext kw wb).2 =
      countSheetWrites kw wb + (scrape_keyword_data env ext kw wb).1 ∧
    countSheetWrites "All Keywords" (scrape_keyword_data env ext kw wb).2 =
      countSheetWrites "All Keywords" wb + (scrape_keyword_data env ext kw wb).1 := by
  unfold scrape_keyword_data
  split
  · simp
  · dsimp only
    obtain ⟨q0, q1, q2, q3, q4⟩ := sl_mirror ext kw (env kw).fetches 0 wb a b hkw h0 ha hb
    exact ⟨by omega, by omega⟩

/-- Identity external capabilities used by concrete witnesses. -/
def ext_id : ExtCaps := ⟨id, id, id, fun _ => none, fun _ _ => none⟩

/-- Driver environment with no results for any term. -/
def env_quiet : String → TermEnv := fun _ => ⟨false, []⟩

/-- Driver environment returning a single one-element page for any term. -/
def env_one : String → TermEnv := fun _ => ⟨false, [[({} : RowElem)]]⟩

/-- Workbook right after the aggregate sheet and a sheet "k" were created. -/
def wb_k : Workbook := (new_worksheet mk_listing_workbook "k").getD empty_workbook

/-- Witness for `term_sheet_mirrors_aggregate` at a concrete input. -/
theorem term_sheet_mirrors_aggregate_witness :
    ("k" : String) ≠ "All Keywords" ∧ ("k" : String) ≠ "" ∧
    wb_k.row_counts "k" = some 1 ∧ wb_k.row_counts "All Keywords" = some 1 ∧
    (countSheetWrites "k" (scrape_keyword_data env_one ext_id "k" wb_k).2 =
      countSheetWrites "k" wb_k + (scrape_keyword_data env_one ext_id "k" wb_k).1 ∧
     countSheetWrites "All Keywords" (scrape_keyword_data env_one ext_id "k" wb_k).2 =
      countSheetWrites "All Keywords" wb_k +
        (scrape_keyword_data env_one ext_id "k" wb_k).1) :=
  ⟨by decide, by decide, by decide, by decide,
   term_sheet_mirrors_aggregate env_one ext_id "k" wb_k 1 1
     (by decide) (by decide) (by decide) (by decide)⟩

/-- True exactly for a hyperlink cell. -/
def Cell.isHyperlink : Cell → Bool
  | .link _ _ => true
  | _ => false

/-- C4.  Extraction is total (the embedding returns a record for every
listing element — no exception escapes `parse_data_row`), and each field
fails independently: a missing selector or a failing transform (such as a
non-numeric price text after stripping "$" and ",") resolves that field —
and only that field — to absence, and the price cell then renders empty.
The final conjunct shows isolation: each output field depends only on its
own selector lookups. -/
theorem field_failures_isolated (ext : ExtCaps) (kw : String) (row : RowElem) :
    (row.title_text = none → (parse_data_row ext kw row).title = none) ∧
    (row.link_href = none → (parse_data_row ext kw row).title_href = none ∧
      (parse_data_row ext kw row).item_id = none) ∧
    (row.seller_info_text = none → (parse_data_row ext kw row).seller = none ∧
      (parse_data_row ext kw row).seller_search_link = none) ∧
    (row.image_src = none → (parse_data_row ext kw row).image_url = none) ∧
    (row.price_text = none → (parse_data_row ext kw row).price = none) ∧
    (∀ s, row.price_text = some s →
      ext.parse_float ((s.replace "," "").replace "$" "") = none →
      (parse_data_row ext kw row).price = none ∧
      write_data (parse_data_row ext kw row) .PRICE none true = Cell.empty) ∧
    (row.shipping_text = none → row.free_x_days_text = none →
      (parse_data_row ext kw row).shipping_cost = none) ∧
    (∀ r2 : RowElem,
      (row.title_text = r2.title_text →
        (parse_data_row ext kw r2).title = (parse_data_row ext kw row).title) ∧
      (row.link_href = r2.link_href →
        (parse_data_row ext kw r2).title_href = (parse_data_row ext kw row).title_href ∧
        (parse_data_row ext kw r2).item_id = (parse_data_row ext kw row).item_id) ∧
      (row.seller_info_text = r2.seller_info_text →
        (parse_data_row ext kw r2).seller = (parse_data_row ext kw row).seller ∧
        (parse_data_row ext kw r2).seller_search_link =
          (parse_data_row ext kw row).seller_search_link) ∧
      (row.image_src = r2.image_src →
        (parse_data_row ext kw r2).image_url = (parse_data_row ext kw row).image_url) ∧
      (row.price_text = r2.price_text →
        (parse_data_row ext kw r2).price = (parse_data_row ext kw row).price) ∧
      (row.shipping_text = r2.shipping_text → row.free_x_days_text = r2.free_x_days_text →
        (parse_data_row ext kw r2).shipping_cost =
          (parse_data_row ext kw row).shipping_cost) ∧
      (parse_data_row ext kw r2).keyword = (parse_data_row ext kw row).keyword) := by
  obtain ⟨t, l, si, im, p, sh, fx⟩ := row
  refine ⟨?_, ?_, ?_, ?_, ?_, ?_, ?_, ?_⟩
  · intro h
    subst h
    rfl
  · intro h
    subst h
    exact ⟨rfl, rfl⟩
  · intro h
    subst h
    exact ⟨rfl, rfl⟩
  · intro h
    subst h
    rfl
  · intro h
    subst h
    rfl
  · intro s hs hp
    subst hs
    refine ⟨hp, ?_⟩
    have hget : (parse_data_row ext kw ⟨t, l, si, im, some s, sh, fx⟩).get .PRICE = none := by
      show ((parse_data_row ext kw ⟨t, l, si, im, some s, sh, fx⟩).price).map Value.num = none
      rw [show (parse_data_row ext kw ⟨t, l, si, im, some s, sh, fx⟩).price
          = ext.parse_float ((s.replace "," "").replace "$" "") from rfl, hp]
      rfl
    unfold write_data
    rw [hget]
  · intro h1 h2
    subst h1
    subst h2
    rfl
  · intro r2
    obtain ⟨t2, l2, si2, im2, p2, sh2, fx2⟩ := r2
    refine ⟨?_, ?_, ?_, ?_, ?_, ?_, rfl⟩
    · intro h
      subst h
      rfl
    · intro h
      subst h
      exact ⟨rfl, rfl⟩
    · intro h
      subst h
      exact ⟨rfl, rfl⟩
    · intro h
      subst h
      rfl
    · intro h
      subst h
      rfl
    · intro h1 h2
      subst h1
      subst h2
      rfl

/-- Witness for `field_failures_isolated` at a concrete input: a price text
that is non-numeric after stripping. -/
theorem field_failures_isolated_witness :
    (parse_data_row ext_id "k" { price_text := some "abc" }).price = none ∧
    write_data (parse_data_row ext_id "k" { price_text := some "abc" })
      .PRICE none true = Cell.empty :=
  (field_failures_isolated ext_id "k" { price_text := some "abc" }).2.2.2.2.2.1
    "abc" rfl rfl

/-- C8.  When the link lookup fails (the `href` attribute is absent), the
derived item id is absent, the cleaned link is absent, and the title cell
is written as plain text (or empty), never as a hyperlink. -/
theorem absent_link_plain_title (ext : ExtCaps) (kw : String) (row : RowElem)
    (h : row.link_href = none) :
    (parse_data_row ext kw row).item_id = none ∧
    (parse_data_row ext kw row).title_href = none ∧
    (write_data (parse_data_row ext kw row) .TITLE (some .TITLE_HREF)
      false).isHyperlink = false := by
  obtain ⟨t, l, si, im, p, sh, fx⟩ := row
  subst h
  refine ⟨rfl, rfl, ?_⟩
  cases t with
  | none => rfl
  | some ts => rfl

/-- Witness for `absent_link_plain_title` at a concrete input. -/
theorem absent_link_plain_title_witness :
    (parse_data_row ext_id "k" { title_text := some "T" }).item_id = none ∧
    (parse_data_row ext_id "k" { title_text := some "T" }).title_href = none ∧
    (write_data (parse_data_row ext_id "k" { title_text := some "T" })
      .TITLE (some .TITLE_HREF) false).isHyperlink = false :=
  absent_link_plain_title ext_id "k" { title_text := some "T" } rfl

/-- C9.  Given that cleaning a non-empty URL yields a non-empty canonical
URL (`Utils.ebay_clean_product_url` is not under the sources; per the spec
it only strips tracking parameters), the cleaned-link field is present in a
record exactly when the derived item-id field is, and then the item id is
the final "/"-separated segment of the cleaned link. -/
theorem title_href_iff_item_id (ext : ExtCaps) (kw : String) (row : RowElem)
    (hclean : ∀ s, s ≠ "" → ext.ebay_clean_product_url s ≠ "") :
    ((parse_data_row ext kw row).title_href.isSome ↔
      (parse_data_row ext kw row).item_id.isSome) ∧
    (∀ u, (parse_data_row ext kw row).title_href = some u →
      (parse_data_row ext kw row).item_id = some ((u.splitOn "/").getLastD "")) := by
  obtain ⟨t, l, si, im, p, sh, fx⟩ := row
  cases l with
  | none =>
    refine ⟨Iff.rfl, ?_⟩
    intro u h
    exact Option.noConfusion h
  | some s =>
    by_cases hs : s = ""
    · subst hs
      refine ⟨?_, ?_⟩
      · simp [parse_data_row, safe_extract_attribute]
      · intro u h
        simp [parse_data_row, safe_extract_attribute] at h
    · have hcl := hclean s hs
      refine ⟨?_, ?_⟩
      · simp [parse_data_row, safe_extract_attribute, hs, extract_item_id_from_href, hcl]
      · intro u h
        simp [parse_data_row, safe_extract_attribute, hs] at h
        subst h
        simp [parse_data_row, safe_extract_attribute, hs, extract_item_id_from_href, hcl]

/-- Witness for `title_href_iff_item_id` at a concrete input. -/
theorem title_href_iff_item_id_witness :
    (parse_data_row ext_id "k" { link_href := some "https://x/itm/123" }).item_id =
      some (("https://x/itm/123".splitOn "/").getLastD "") :=
  (title_href_iff_item_id ext_id "k" { link_href := some "https://x/itm/123" }
    (fun _ h => h)).2 "https://x/itm/123" rfl

/-- C6.  The header row written at row 0 places each field's declared
header exactly at its declared fixed column index: the written cells are
`(0, "Image"), ..., (6, "Item ID")`, so re-reading the header row at any
declared column recovers that field's header, and reading it left to right
recovers the headers in ascending column-index order. -/
theorem header_row_round_trip :
    (enumMembers.all (fun f =>
      match (dataAttr f).header, (dataAttr f).column with
      | some h, some c => header_cell_at c == some h
      | _, _ => true)) = true ∧
    add_headers_cells = [(0, "Image"), (1, "Keyword"), (2, "Title"), (3, "Listing Price"),
      (4, "Shipping Cost"), (5, "Seller"), (6, "Item ID")] := by
  constructor
  · decide
  · decide

/-! Helper lemmas about `new_worksheet` and `run_loop`. -/

lemma new_worksheet_writes (wb : Workbook) (name : String) (wb1 : Workbook)
    (h : new_worksheet wb name = some wb1) : wb1.writes = wb.writes := by
  unfold new_worksheet at h
  split at h
  · exact Option.noConfusion h
  · cases h
    rfl

lemma new_worksheet_sheets (wb : Workbook) (name : String) (wb1 : Workbook)
    (h : new_worksheet wb name = some wb1) : wb1.sheets = wb.sheets ++ [name] := by
  unfold new_worksheet at h
  split at h
  · exact Option.noConfusion h
  · cases h
    rfl

lemma new_worksheet_rc_self (wb : Workbook) (name : String) (wb1 : Workbook)
    (h : new_worksheet wb name = some wb1) : wb1.row_counts name = some 1 := by
  unfold new_worksheet at h
  split at h
  · exact Option.noConfusion h
  · cases h
    simp [added_worksheet]

lemma new_worksheet_rc_ne (wb : Workbook) (name : String) (wb1 : Workbook)
    (s : String) (hs : s ≠ name) (h : new_worksheet wb name = some wb1) :
    wb1.row_counts s = wb.row_counts s := by
  unfold new_worksheet at h
  split at h
  · exact Option.noConfusion h
  · cases h
    simp [added_worksheet, hs]

lemma new_worksheet_not_mem (wb : Workbook) (name : String)
    (h : name ∉ wb.sheets) :
    new_worksheet wb name = some (added_worksheet wb name) := by
  unfold new_worksheet
  rw [if_neg h]

lemma run_loop_blank (env : String → TermEnv) (ext : ExtCaps) (ks : List String)
    (wb : Workbook) (att : List String) (h : ∀ k ∈ ks, py_strip k = "") :
    run_loop env ext ks wb att = (wb, att, true) := by
  induction ks generalizing wb att with
  | nil => rfl
  | cons k rest ih =>
    rw [run_loop]
    rw [if_pos (h k (by simp))]
    exact ih wb att (fun x hx => h x (by simp [hx]))

lemma run_loop_ok (env : String → TermEnv) (ext : ExtCaps) (ks : List String)
    (wb : Workbook) (att : List String)
    (h1 : ((ks.map py_strip).filter (fun s => s ≠ "")).Nodup)
    (h2 : ∀ t ∈ (ks.map py_strip).filter (fun s => s ≠ ""), t ∉ wb.sheets) :
    ∃ wb2, run_loop env ext ks wb att =
      (wb2, att ++ (ks.map py_strip).filter (fun s => s ≠ ""), true) ∧
      wb2.sheets = wb.sheets ++ (ks.map py_strip).filter (fun s => s ≠ "") := by
  induction ks generalizing wb att with
  | nil => exact ⟨wb, by simp [run_loop], by simp⟩
  | cons k rest ih =>
    rw [run_loop]
    by_cases hk : (py_strip k) = ""
    · rw [if_pos hk]
      have heq : (((k :: rest).map py_strip).filter (fun s => s ≠ "")) =
          ((rest.map py_strip).filter (fun s => s ≠ "")) := by
        simp [hk]
      rw [heq] at h1 h2 ⊢
      exact ih wb att h1 h2
    · rw [if_neg hk]
      have heq : (((k :: rest).map py_strip).filter (fun s => s ≠ "")) =
          (py_strip k) :: ((rest.map py_strip).filter (fun s => s ≠ "")) := by
        simp [hk]
      rw [heq] at h1 h2 ⊢
      have hmem : (py_strip k) ∉ wb.sheets := h2 (py_strip k) (by simp)
      rw [new_worksheet_not_mem wb (py_strip k) hmem]
      dsimp only
      have hnd2 : ((rest.map py_strip).filter (fun s => s ≠ "")).Nodup :=
        (List.nodup_cons.mp h1).2
      have hnotin : (py_strip k) ∉ (rest.map py_strip).filter (fun s => s ≠ "") :=
        (List.nodup_cons.mp h1).1
      have hyp : ∀ t ∈ (rest.map py_strip).filter (fun s => s ≠ ""),
          t ∉ (scrape_keyword_data env ext (py_strip k) (added_worksheet wb (py_strip k))).2.sheets := by
        intro t ht
        rw [scrape_sheets]
        intro hcontra
        simp only [added_worksheet, List.mem_append, List.mem_singleton] at hcontra
        rcases hcontra with hcontra | hcontra
        · exact h2 t (List.mem_cons_of_mem _ ht) hcontra
        · exact hnotin (hcontra ▸ ht)
      obtain ⟨wb2, hrl, hsh⟩ := ih
        (scrape_keyword_data env ext (py_strip k) (added_worksheet wb (py_strip k))).2
        (att ++ [(py_strip k)]) hnd2 hyp
      refine ⟨wb2, ?_, ?_⟩
      · rw [hrl]
        simp
      · rw [hsh, scrape_sheets]
        simp [added_worksheet]

lemma run_loop_writes (env : String → TermEnv) (ext : ExtCaps) (ks : List String)
    (wb : Workbook) (att : List String) (e : WriteEntry)
    (h : e ∈ (run_loop env ext ks wb att).1.writes) :
    e ∈ wb.writes ∨ ∃ k, k ∈ ks ∧ (py_strip k) ≠ "" ∧ e.data.keyword = some (py_strip k) ∧
      (e.sheet = "All Keywords" ∨ e.sheet = (py_strip k)) := by
  induction ks generalizing wb att with
  | nil => exact Or.inl h
  | cons k rest ih =>
    rw [run_loop] at h
    by_cases hk : (py_strip k) = ""
    · rw [if_pos hk] at h
      rcases ih wb att h with h1 | ⟨k0, hk0, h2⟩
      · exact Or.inl h1
      · exact Or.inr ⟨k0, by simp [hk0], h2⟩
    · rw [if_neg hk] at h
      cases hnw : new_worksheet wb (py_strip k) with
      | none =>
        rw [hnw] at h
        exact Or.inl h
      | some wb1 =>
        rw [hnw] at h
        rcases ih _ _ h with h1 | ⟨k0, hk0, h2⟩
        · rcases scrape_writes env ext (py_strip k) wb1 e h1 with h2 | ⟨hsheet, hkw⟩
          · left
            rwa [new_worksheet_writes wb (py_strip k) wb1 hnw] at h2
          · exact Or.inr ⟨k, by simp, hk, hkw, hsheet.symm⟩
        · exact Or.inr ⟨k0, by simp [hk0], h2⟩

lemma run_loop_sheets (env : String → TermEnv) (ext : ExtCaps) (ks : List String)
    (wb : Workbook) (att : List String) (s : String)
    (h : s ∈ (run_loop env ext ks wb att).1.sheets) :
    s ∈ wb.sheets ∨ ∃ k, k ∈ ks ∧ (py_strip k) ≠ "" ∧ s = (py_strip k) := by
  induction ks generalizing wb att with
  | nil => exact Or.inl h
  | cons k rest ih =>
    rw [run_loop] at h
    by_cases hk : (py_strip k) = ""
    · rw [if_pos hk] at h
      rcases ih wb att h with h1 | ⟨k0, hk0, h2⟩
      · exact Or.inl h1
      · exact Or.inr ⟨k0, by simp [hk0], h2⟩
    · rw [if_neg hk] at h
      cases hnw : new_worksheet wb (py_strip k) with
      | none =>
        rw [hnw] at h
        exact Or.inl h
      | some wb1 =>
        rw [hnw] at h
        rcases ih _ _ h with h1 | ⟨k0, hk0, h2⟩
        · rw [scrape_sheets, new_worksheet_sheets wb (py_strip k) wb1 hnw] at h1
          simp only [List.mem_append, List.mem_singleton] at h1
          rcases h1 with h1 | h1
          · exact Or.inl h1
          · exact Or.inr ⟨k, by simp, hk, h1⟩
        · exact Or.inr ⟨k0, by simp [hk0], h2⟩

/-- Driver environment in which navigation (or the captcha check) raises
for every term; `scrape_keyword_data` catches this. -/
def env_nav : String → TermEnv := fun _ => ⟨true, []⟩

/-- Counterexample to C5 as stated.  An exception raised while creating a
term's worksheet (here: the duplicate keyword "a" makes `add_worksheet`
raise `DuplicateWorksheetName` inside `KeywordScraper.__init__`, which is
not inside any per-term handler) propagates to the run-level handler of
`process_keywords`: the remaining term "b" is never attempted and
`save_workbook` is never reached. -/
theorem worksheet_creation_failure_aborts_run :
    (process_keywords env_quiet ext_id ["a", "a", "b"]).attempted = ["a"] ∧
    (process_keywords env_quiet ext_id ["a", "a", "b"]).saved = false ∧
    ("b" : String) ∉ (process_keywords env_quiet ext_id ["a", "a", "b"]).attempted := by
  refine ⟨by decide, by decide, by decide⟩

/-- C5 (amended).  Exceptions raised while scraping a term (navigation,
captcha, fetching, processing — all caught inside `scrape_keyword_data`)
never abort the remaining terms; provided additionally that no term's
worksheet creation fails (the trimmed non-blank terms are pairwise distinct
and none is named like the aggregate sheet), the run attempts every
non-blank term in order and then attempts to persist the workbook. -/
theorem scrape_failures_do_not_abort_run (env : String → TermEnv) (ext : ExtCaps)
    (ks : List String)
    (hnd : ((ks.map py_strip).filter (fun s => s ≠ "")).Nodup)
    (hak : "All Keywords" ∉ (ks.map py_strip).filter (fun s => s ≠ ""))
    (hne : ks ≠ []) :
    (process_keywords env ext ks).attempted =
      (ks.map py_strip).filter (fun s => s ≠ "") ∧
    (process_keywords env ext ks).saved = true := by
  unfold process_keywords
  rw [if_neg (by simpa using hne)]
  dsimp only
  have h2 : ∀ t ∈ (ks.map py_strip).filter (fun s => s ≠ ""),
      t ∉ mk_listing_workbook.sheets := by
    intro t ht hmem
    have hsh : mk_listing_workbook.sheets = ["All Keywords"] := by decide
    rw [hsh] at hmem
    simp only [List.mem_singleton] at hmem
    exact hak (hmem ▸ ht)
  obtain ⟨wb2, heq, hsheets⟩ := run_loop_ok env ext ks mk_listing_workbook [] hnd h2
  rw [heq]
  exact ⟨by simp, rfl⟩

/-- Witness for `scrape_failures_do_not_abort_run`: two terms, with
navigation raising for both — both are still attempted and the save is
reached. -/
theorem scrape_failures_do_not_abort_run_witness :
    ((["x", " y "].map py_strip).filter (fun s => s ≠ "")).Nodup ∧
    "All Keywords" ∉ (["x", " y "].map py_strip).filter (fun s => s ≠ "") ∧
    (["x", " y "] : List String) ≠ [] ∧
    ((process_keywords env_nav ext_id ["x", " y "]).attempted =
      (["x", " y "].map py_strip).filter (fun s => s ≠ "") ∧
     (process_keywords env_nav ext_id ["x", " y "]).saved = true) :=
  ⟨by decide, by decide, by decide,
   scrape_failures_do_not_abort_run env_nav ext_id ["x", " y "]
     (by decide) (by decide) (by decide)⟩

/-- Counterexample to C7 as stated.  For the all-blank (non-empty) term
list `[" "]` the source only checks `if not keywords:`, so it still creates
the image and screenshot folders and the workbook file, runs the (empty)
loop, and saves the workbook: output artifacts are created. -/
theorem blank_terms_still_create_artifacts :
    (process_keywords env_quiet ext_id [" "]).created_artifacts = true ∧
    (process_keywords env_quiet ext_id [" "]).saved = true := by
  refine ⟨by decide, by decide⟩

/-- C7 (amended).  Only an empty term list makes the run return before
creating any output artifact.  A non-empty list of only blank terms still
creates the folders and the workbook: every term is skipped (none is
attempted, no data row is written), and the workbook — holding only the
aggregate sheet — is saved. -/
theorem empty_or_blank_keywords (env : String → TermEnv) (ext : ExtCaps)
    (ks : List String) :
    (ks = [] → (process_keywords env ext ks).created_artifacts = false ∧
      (process_keywords env ext ks).saved = false ∧
      (process_keywords env ext ks).wb.writes = []) ∧
    ((∀ k ∈ ks, py_strip k = "") → (process_keywords env ext ks).attempted = [] ∧
      (process_keywords env ext ks).wb.writes = [] ∧
      (ks ≠ [] → (process_keywords env ext ks).created_artifacts = true ∧
        (process_keywords env ext ks).saved = true)) := by
  constructor
  · intro h
    subst h
    exact ⟨rfl, rfl, rfl⟩
  · intro hblank
    cases ks with
    | nil => exact ⟨rfl, rfl, fun h => absurd rfl h⟩
    | cons k rest =>
      unfold process_keywords
      rw [if_neg (by simp)]
      dsimp only
      rw [run_loop_blank env ext (k :: rest) mk_listing_workbook [] hblank]
      refine ⟨rfl, ?_, fun _ => ⟨rfl, rfl⟩⟩
      decide

/-- Witness for `empty_or_blank_keywords` at the concrete all-blank list. -/
theorem empty_or_blank_keywords_witness :
    (∀ k ∈ ([" ", ""] : List String), (py_strip k) = "") ∧
    ((process_keywords env_quiet ext_id [" ", ""]).attempted = [] ∧
     (process_keywords env_quiet ext_id [" ", ""]).wb.writes = [] ∧
     (([" ", ""] : List String) ≠ [] →
       (process_keywords env_quiet ext_id [" ", ""]).created_artifacts = true ∧
       (process_keywords env_quiet ext_id [" ", ""]).saved = true)) :=
  ⟨by decide, (empty_or_blank_keywords env_quiet ext_id [" ", ""]).2 (by decide)⟩

/-- C10.  Every data row the run writes belongs to a term of the input
list, stripped of surrounding whitespace: its stored keyword field is the
stripped term, and its target sheet is either the aggregate sheet or the
sheet named by the stripped term; likewise every sheet of the final
workbook is the aggregate sheet or is named by a stripped non-blank input
term. -/
theorem terms_trimmed_before_processing (env : String → TermEnv) (ext : ExtCaps)
    (ks : List String) :
    (∀ e, e ∈ (process_keywords env ext ks).wb.writes →
      ∃ k, k ∈ ks ∧ py_strip k ≠ "" ∧ e.data.keyword = some (py_strip k) ∧
        (e.sheet = "All Keywords" ∨ e.sheet = py_strip k)) ∧
    (∀ s, s ∈ (process_keywords env ext ks).wb.sheets →
      s = "All Keywords" ∨ ∃ k, k ∈ ks ∧ py_strip k ≠ "" ∧ s = py_strip k) := by
  unfold process_keywords
  split
  · constructor
    · intro e h
      exact absurd h (by simp [empty_workbook])
    · intro s h
      exact absurd h (by simp [empty_workbook])
  · dsimp only
    constructor
    · intro e h
      rcases run_loop_writes env ext ks mk_listing_workbook [] e h with h1 | h1
      · exact absurd h1 (by simp [mk_listing_workbook, new_worksheet, added_worksheet,
          empty_workbook])
      · exact h1
    · intro s h
      rcases run_loop_sheets env ext ks mk_listing_workbook [] s h with h1 | h1
      · left
        simpa [mk_listing_workbook, new_worksheet, added_worksheet,
          empty_workbook] using h1
      · exact Or.inr h1

/-- Default entry used only to take the head of a write log. -/
def default_entry : WriteEntry := ⟨"", 0, {}, []⟩

/-- The run of the concrete C10 witness and its first write entry. -/
def wit_run : RunResult := process_keywords env_one ext_id [" k "]

/-- First write entry of the witness run. -/
def wit_entry : WriteEntry := wit_run.wb.writes.headD default_entry

/-- Witness for `terms_trimmed_before_processing` at a concrete input. -/
theorem terms_trimmed_before_processing_witness :
    wit_entry ∈ wit_run.wb.writes ∧
    ∃ k, k ∈ ([" k "] : List String) ∧ py_strip k ≠ "" ∧
      wit_entry.data.keyword = some (py_strip k) ∧
      (wit_entry.sheet = "All Keywords" ∨ wit_entry.sheet = py_strip k) :=
  ⟨by decide,
   (terms_trimmed_before_processing env_one ext_id [" k "]).1 wit_entry (by decide)⟩
